import Mathlib

/-!
Verification of the execution-and-item tracking core of `rpa_suite`
(`rpa_suite/core/database.py`, class `Database`).

The three SQL tables (executions, items, logs) are modelled as Lean lists of
rows; each public method of the `Database` class becomes a pure function on a
`DbState` record.  SQL semantics are embedded explicitly:

* an `UPDATE ... WHERE cond` is a `List.map` applying the change only to rows
  satisfying `cond` (SQLite runs without `PRAGMA foreign_keys`, so no cascades
  fire on deletes);
* `SELECT ... WHERE` is `List.filter`, `SELECT ... LIMIT 1` with
  `ORDER BY priority DESC, queue_position ASC` is a left fold keeping the
  first best row;
* `SUM(CASE ...)` over an empty row set is SQL `NULL`, modelled as `none`
  (`COUNT(*)` is always a number);
* auto-increment ids come from explicit `nextExecId`/`nextItemId` counters;
* Python exceptions (`DatabaseError`) become `Except String`; timestamps are
  abstract `Nat` instants passed in as a `now` argument; the floating-point
  `execution_time_seconds` columns are not modelled (no claim concerns them);
* the opaque JSON payloads (`metadata`, `item_data`, `processing_schema`) are
  kept as uninterpreted `Option String` values.
-/

namespace RpaSuite

/-- One row of the executions table (`SQLGenerator.create_executions_table`).
`successful_items`, `failed_items` and `interrupted_items` are nullable
INTEGER columns (`DEFAULT 0`, no NOT NULL), hence `Option Nat`. -/
structure ExecRow where
  id : Nat
  execution_id : Option String
  automation_name : String
  status : String
  finished_properly : Bool
  allow_reprocess : Bool
  reprocess_count : Nat
  parent_execution_id : Option Nat
  started_at : Nat
  finished_at : Option Nat
  total_items : Nat
  successful_items : Option Nat
  failed_items : Option Nat
  interrupted_items : Option Nat
  error_message : Option String
  metadata : Option String
deriving Repr, DecidableEq

/-- One row of the items table (`SQLGenerator.create_items_table`). -/
structure ItemRow where
  id : Nat
  execution_id : Nat
  item_identifier : Option String
  status : String
  priority : Int
  queue_position : Nat
  processing_schema : Option String
  item_data : Option String
  last_checkpoint : Option String
  started_at : Option Nat
  finished_at : Option Nat
  error_message : Option String
  notes : Option String
  retry_count : Nat
  allow_reprocess : Bool
deriving Repr, DecidableEq

/-- One row of the logs table (`SQLGenerator.create_logs_table`). -/
structure LogRow where
  id : Nat
  execution_id : Nat
  log_level : String
  step_name : Option String
  message : String
deriving Repr, DecidableEq

/-- One entry of the `items` argument of `Database.add_items`: the caller
supplies a dict with optional identifier, payloads and priority. -/
structure ItemSpec where
  item_identifier : Option String
  item_data : Option String
  processing_schema : Option String
  priority : Option Int
deriving Repr, DecidableEq

/-- The persistent tables together with the process-local state of a
`Database` instance: the `_current_execution_id` marker and the two
class-level reprocess policy flags fixed at construction. -/
structure DbState where
  executions : List ExecRow
  items : List ItemRow
  logs : List LogRow
  nextExecId : Nat
  nextItemId : Nat
  current_execution_id : Option Nat
  allow_reprocess_items : Bool
  allow_reprocess_executions : Bool
deriving Repr, DecidableEq

/-- A database with empty tables, as produced by `_create_tables` on a fresh
file (SQLite AUTOINCREMENT starts handing out ids at 1). -/
def emptyDb : DbState :=
  { executions := [], items := [], logs := [], nextExecId := 1, nextItemId := 1,
    current_execution_id := none, allow_reprocess_items := false,
    allow_reprocess_executions := false }

/-- `SELECT * FROM executions WHERE id = ?` (`Database.get_execution`). -/
def get_execution (db : DbState) (execution_id : Nat) : Option ExecRow :=
  db.executions.find? (fun r => decide (r.id = execution_id))

/-- `SELECT * FROM items WHERE id = ?` (`Database.get_item`). -/
def get_item (db : DbState) (item_id : Nat) : Option ItemRow :=
  db.items.find? (fun it => decide (it.id = item_id))

/-- The items belonging to one execution (`WHERE execution_id = ?`). -/
def exec_items (db : DbState) (execution_id : Nat) : List ItemRow :=
  db.items.filter (fun it => decide (it.execution_id = execution_id))

/-- The queue positions of one execution's items, in table (insertion) order. -/
def queuePositions (db : DbState) (execution_id : Nat) : List Nat :=
  (exec_items db execution_id).map (fun it => it.queue_position)

/-- `COALESCE(MAX(queue_position), 0)` over one execution's items. -/
def maxQueuePosition (db : DbState) (execution_id : Nat) : Nat :=
  (queuePositions db execution_id).foldl max 0

/-- Stable insertion of an item into a list sorted by ascending
`queue_position` (used to embed `ORDER BY queue_position ASC`). -/
def insertByPos (it : ItemRow) : List ItemRow → List ItemRow
  | [] => [it]
  | j :: rest =>
      if it.queue_position ≤ j.queue_position then it :: j :: rest
      else j :: insertByPos it rest

/-- Stable sort by ascending `queue_position`. -/
def sortByPos : List ItemRow → List ItemRow
  | [] => []
  | it :: rest => insertByPos it (sortByPos rest)

/-- `Database.get_items` without a status filter:
`SELECT * FROM items WHERE execution_id = ? ORDER BY queue_position ASC`. -/
def get_items (db : DbState) (execution_id : Nat) : List ItemRow :=
  sortByPos (exec_items db execution_id)

/-- Projection helpers used to state results about a stored execution row. -/
def exec_status (db : DbState) (e : Nat) : Option String :=
  match get_execution db e with
  | none => none
  | some r => some r.status

def exec_total_items (db : DbState) (e : Nat) : Option Nat :=
  match get_execution db e with
  | none => none
  | some r => some r.total_items

def exec_successful_items (db : DbState) (e : Nat) : Option (Option Nat) :=
  match get_execution db e with
  | none => none
  | some r => some r.successful_items

def exec_failed_items (db : DbState) (e : Nat) : Option (Option Nat) :=
  match get_execution db e with
  | none => none
  | some r => some r.failed_items

def exec_interrupted_items (db : DbState) (e : Nat) : Option (Option Nat) :=
  match get_execution db e with
  | none => none
  | some r => some r.interrupted_items

/-- Number of an execution's own items currently in a given status. -/
def status_items_count (db : DbState) (e : Nat) (st : String) : Nat :=
  ((exec_items db e).filter (fun it => decide (it.status = st))).length

def success_items_count (db : DbState) (e : Nat) : Nat :=
  status_items_count db e "success"

def failed_items_count (db : DbState) (e : Nat) : Nat :=
  status_items_count db e "failed"

def interrupted_items_count (db : DbState) (e : Nat) : Nat :=
  status_items_count db e "interrupted"

-- ========== EXECUTION METHODS ==========

/-- `Database.start_execution`: inserts a `running` row (all counters at
their column defaults) and records it as the process-local current
execution.  Returns the new state and the generated id. -/
def start_execution (db : DbState) (automation_name : String)
    (execution_id : Option String) (metadata : Option String) (now : Nat) :
    DbState × Nat :=
  let newId := db.nextExecId
  let row : ExecRow :=
    { id := newId, execution_id := execution_id,
      automation_name := automation_name, status := "running",
      finished_properly := false, allow_reprocess := true,
      reprocess_count := 0, parent_execution_id := none, started_at := now,
      finished_at := none, total_items := 0, successful_items := some 0,
      failed_items := some 0, interrupted_items := some 0,
      error_message := none, metadata := metadata }
  ({ db with executions := db.executions ++ [row], nextExecId := newId + 1,
             current_execution_id := some newId }, newId)

/-- `Database.finish_execution`.  Rejects a status outside
completed/failed/cancelled, then loads the row (not-found error if absent),
recomputes the item counters by aggregating the items table
(`SUM(CASE ...)` over zero rows is SQL NULL, `COUNT(*)` is 0) and writes all
fields of the row, clearing the current-execution marker if it matches. -/
def finish_execution (db : DbState) (execution_id : Nat) (status : String)
    (error_message : Option String) (now : Nat) :
    Except String (DbState × Bool) :=
  if ¬(status = "completed" ∨ status = "failed" ∨ status = "cancelled") then
    Except.error ("Invalid status: " ++ status)
  else
    match get_execution db execution_id with
    | none => Except.error ("Execution " ++ toString execution_id ++ " not found")
    | some _ =>
        let items := exec_items db execution_id
        let total := items.length
        let successful : Option Nat :=
          if items.isEmpty then none else some (success_items_count db execution_id)
        let failed : Option Nat :=
          if items.isEmpty then none else some (failed_items_count db execution_id)
        let interrupted : Option Nat :=
          if items.isEmpty then none else some (interrupted_items_count db execution_id)
        let execs := db.executions.map (fun r =>
          if r.id = execution_id then
            { r with status := status, finished_properly := true,
                     finished_at := some now, total_items := total,
                     successful_items := successful, failed_items := failed,
                     interrupted_items := interrupted,
                     error_message := error_message }
          else r)
        let cur := if db.current_execution_id = some execution_id then none
                   else db.current_execution_id
        Except.ok ({ db with executions := execs, current_execution_id := cur }, true)

/-- `Database._mark_execution_interrupted`, the conditional update run by the
atexit/signal handlers:
`SET status='interrupted', finished_properly=0 WHERE id=? AND status='running'`. -/
def mark_execution_interrupted (db : DbState) (execution_id : Nat) : DbState :=
  { db with executions := db.executions.map (fun r =>
      if r.id = execution_id ∧ r.status = "running" then
        { r with status := "interrupted", finished_properly := false }
      else r) }

/-- `Database.detect_and_mark_interrupted_executions`: marks every
`running AND finished_properly=0` row interrupted, then returns the ids of
every row now satisfying `status='interrupted' AND finished_properly=0`. -/
def detect_and_mark_interrupted_executions (db : DbState) :
    DbState × List Nat :=
  let execs := db.executions.map (fun r =>
    if r.status = "running" ∧ r.finished_properly = false then
      { r with status := "interrupted", finished_properly := false }
    else r)
  let ids := (execs.filter (fun r =>
    decide (r.status = "interrupted") && decide (r.finished_properly = false))).map
    (fun r => r.id)
  ({ db with executions := execs }, ids)

-- ========== ITEMS METHODS ==========

/-- `Database.add_item`: computes `COALESCE(MAX(queue_position),0)+1` over the
execution's items, inserts the new `pending` row, then increments the
execution's `total_items` counter.  Returns the new state and the item id. -/
def add_item (db : DbState) (execution_id : Nat)
    (item_identifier : Option String) (item_data : Option String)
    (processing_schema : Option String) (priority : Int) : DbState × Nat :=
  let pos := maxQueuePosition db execution_id + 1
  let newId := db.nextItemId
  let row : ItemRow :=
    { id := newId, execution_id := execution_id,
      item_identifier := item_identifier, status := "pending",
      priority := priority, queue_position := pos,
      processing_schema := processing_schema, item_data := item_data,
      last_checkpoint := none, started_at := none, finished_at := none,
      error_message := none, notes := none, retry_count := 0,
      allow_reprocess := true }
  let execs := db.executions.map (fun r =>
    if r.id = execution_id then { r with total_items := r.total_items + 1 }
    else r)
  ({ db with items := db.items ++ [row], executions := execs,
             nextItemId := newId + 1 }, newId)

/-- `Database.add_items`: on a non-empty batch, assigns the contiguous block
of queue positions `max+1, max+2, ...` in input order, bulk-inserts, recovers
the generated ids by re-querying
`WHERE execution_id=? AND queue_position>=start ORDER BY queue_position ASC
LIMIT len`, and adds the batch size to the execution's `total_items`. -/
def add_items (db : DbState) (execution_id : Nat) (specs : List ItemSpec)
    (default_priority : Int) : DbState × List Nat :=
  if specs.isEmpty then (db, [])
  else
    let start := maxQueuePosition db execution_id + 1
    let newRows : List ItemRow := specs.enum.map (fun p =>
      { id := db.nextItemId + p.1, execution_id := execution_id,
        item_identifier := p.2.item_identifier, status := "pending",
        priority := p.2.priority.getD default_priority,
        queue_position := start + p.1,
        processing_schema := p.2.processing_schema,
        item_data := p.2.item_data, last_checkpoint := none,
        started_at := none, finished_at := none, error_message := none,
        notes := none, retry_count := 0, allow_reprocess := true })
    let items := db.items ++ newRows
    let recovered := ((sortByPos (items.filter (fun it =>
      decide (it.execution_id = execution_id) && decide (start ≤ it.queue_position)))).take
      specs.length).map (fun it => it.id)
    let execs := db.executions.map (fun r =>
      if r.id = execution_id then
        { r with total_items := r.total_items + specs.length }
      else r)
    ({ db with items := items, executions := execs,
               nextItemId := db.nextItemId + specs.length }, recovered)

/-- The dequeue status filter of `get_next_item_from_queue`:
`('pending','queued')`, extended with `'interrupted'` when requested. -/
def statusEligible (include_interrupted : Bool) (st : String) : Bool :=
  decide (st = "pending" ∨ st = "queued" ∨
    (include_interrupted = true ∧ st = "interrupted"))

/-- The rows scanned by the dequeue query:
`WHERE execution_id = ? AND status IN (...)`. -/
def eligible_items (db : DbState) (execution_id : Nat)
    (include_interrupted : Bool) : List ItemRow :=
  db.items.filter (fun it =>
    decide (it.execution_id = execution_id) &&
    statusEligible include_interrupted it.status)

/-- `candidate` sorts strictly before `cur` under
`ORDER BY priority DESC, queue_position ASC`. -/
def betterQueueItem (cur candidate : ItemRow) : Bool :=
  decide (cur.priority < candidate.priority ∨
    (candidate.priority = cur.priority ∧
     candidate.queue_position < cur.queue_position))

/-- Left fold implementing `ORDER BY priority DESC, queue_position ASC
LIMIT 1`: keeps the first row of the scan among full ties. -/
def selectBest : Option ItemRow → List ItemRow → Option ItemRow
  | acc, [] => acc
  | none, it :: rest => selectBest (some it) rest
  | some cur, it :: rest =>
      if betterQueueItem cur it then selectBest (some it) rest
      else selectBest (some cur) rest

/-- `Database.get_next_item_from_queue`: a `None` third argument falls back
to the class-level `allow_reprocess_items` policy flag. -/
def get_next_item_from_queue (db : DbState) (execution_id : Nat)
    (include_interrupted : Option Bool) : Option ItemRow :=
  let inc := include_interrupted.getD db.allow_reprocess_items
  selectBest none (eligible_items db execution_id inc)

/-- `Database.start_processing_item`:
`SET status='processing', started_at=? WHERE id=? AND status IN
('pending','queued','interrupted')`; always returns `True`. -/
def start_processing_item (db : DbState) (item_id : Nat) (now : Nat) :
    DbState × Bool :=
  ({ db with items := db.items.map (fun it =>
      if it.id = item_id ∧ (it.status = "pending" ∨ it.status = "queued" ∨
          it.status = "interrupted") then
        { it with status := "processing", started_at := some now }
      else it) }, true)

/-- `Database.update_checkpoint`: `SET last_checkpoint=? WHERE id=?`
(no status condition); always returns `True`. -/
def update_checkpoint (db : DbState) (item_id : Nat) (checkpoint : String) :
    DbState × Bool :=
  ({ db with items := db.items.map (fun it =>
      if it.id = item_id then { it with last_checkpoint := some checkpoint }
      else it) }, true)

/-- Number of items in a given status across the WHOLE items table.  The
counter subquery of `finish_item` compares `execution_id` with
`items.execution_id`, but inside the subquery both names resolve to the inner
items table, so the comparison is a tautology on the NOT NULL column and the
count ranges over every execution's items. -/
def global_status_count (items : List ItemRow) (st : String) : Nat :=
  (items.filter (fun it => decide (it.status = st))).length

/-- The counter refresh run by `finish_item` after its item update:
`UPDATE executions SET successful_items = (...), failed_items = (...)
WHERE id = (SELECT execution_id FROM items WHERE id = ?)` — applied to the
state whose items table has already been updated.  The two subquery counts
range over the whole items table (see `global_status_count`). -/
def finish_item_counter_update (db : DbState) (owner : Option Nat) : DbState :=
  { db with executions := db.executions.map (fun r =>
      if some r.id = owner then
        { r with
            successful_items := some (global_status_count db.items "success"),
            failed_items := some (global_status_count db.items "failed") }
      else r) }

/-- `Database.finish_item`: validates the target status, loads the item
(not-found error if absent), writes the terminal fields, then refreshes the
owning execution's `successful_items`/`failed_items` using the (tautological,
see `global_status_count`) correlated subqueries over the updated items. -/
def finish_item (db : DbState) (item_id : Nat) (status : String)
    (error_message : Option String) (notes : Option String) (now : Nat) :
    Except String (DbState × Bool) :=
  if ¬(status = "success" ∨ status = "failed" ∨ status = "skipped") then
    Except.error ("Invalid status: " ++ status)
  else
    match get_item db item_id with
    | none => Except.error ("Item " ++ toString item_id ++ " not found")
    | some _ =>
        let items := db.items.map (fun it =>
          if it.id = item_id then
            { it with status := status, finished_at := some now,
                      error_message := error_message, notes := notes }
          else it)
        let owner : Option Nat :=
          (items.find? (fun it => decide (it.id = item_id))).map
            (fun it => it.execution_id)
        Except.ok (finish_item_counter_update { db with items := items } owner,
          true)

/-- `Database.detect_and_mark_interrupted_items`: marks every `processing`
item interrupted, then returns the ids of every item now in
`status='interrupted'`. -/
def detect_and_mark_interrupted_items (db : DbState) : DbState × List Nat :=
  let items := db.items.map (fun it =>
    if it.status = "processing" then { it with status := "interrupted" }
    else it)
  let ids := (items.filter (fun it => decide (it.status = "interrupted"))).map
    (fun it => it.id)
  ({ db with items := items }, ids)

-- ========== REPROCESSING METHODS ==========

/-- `Database.can_reprocess_execution`: interrupted row, row-level
`allow_reprocess` flag, and class-level policy flag. -/
def can_reprocess_execution (db : DbState) (execution_id : Nat) : Bool :=
  match get_execution db execution_id with
  | none => false
  | some r =>
      decide (r.status = "interrupted") && r.allow_reprocess &&
      db.allow_reprocess_executions

/-- Item-copy loop body of `reprocess_interrupted_execution`.  The INSERT of
the copied row sits under `if reset_items_status:` in the source, so a copy
is written only when the reset flag is set (the `new_status` computed for the
non-reset branch is dead). -/
def copy_items_step (newExecId : Nat) (reset_items_status : Bool)
    (d : DbState) (item : ItemRow) : DbState :=
  if reset_items_status then
    { d with
      items := d.items ++
        [{ id := d.nextItemId, execution_id := newExecId,
           item_identifier := item.item_identifier, status := "pending",
           priority := item.priority, queue_position := item.queue_position,
           processing_schema := item.processing_schema,
           item_data := item.item_data, last_checkpoint := none,
           started_at := none, finished_at := none, error_message := none,
           notes := none, retry_count := 0,
           allow_reprocess := item.allow_reprocess }],
      nextItemId := d.nextItemId + 1 }
  else d

/-- The `UPDATE executions SET parent_execution_id=?,
reprocess_count=reprocess_count+1 WHERE id=?` of
`reprocess_interrupted_execution`; the WHERE targets the NEW row. -/
def reprocess_parent_update (db : DbState) (orig_id newId : Nat) : DbState :=
  { db with executions := db.executions.map (fun r =>
      if r.id = newId then
        { r with parent_execution_id := some orig_id,
                 reprocess_count := r.reprocess_count + 1 }
      else r) }

/-- The item-copy phase of `reprocess_interrupted_execution`: iterates the
original execution's items (read from the current state) when `keep_items`
is set; each loop iteration inserts only under `reset_items_status` (see
`copy_items_step`). -/
def reprocess_copy_items (db : DbState) (orig_id newId : Nat)
    (keep_items reset_items_status : Bool) : DbState :=
  if keep_items then
    (get_items db orig_id).foldl (copy_items_step newId reset_items_status) db
  else db

/-- `Database.reprocess_interrupted_execution`: returns `none` when the
policy check fails; otherwise starts a fresh execution, points its
`parent_execution_id` at the original and bumps the NEW row's
`reprocess_count`, then runs the item-copy loop over the original's items. -/
def reprocess_interrupted_execution (db : DbState) (execution_id : Nat)
    (keep_items : Bool) (reset_items_status : Bool) (now : Nat) :
    Except String (DbState × Option Nat) :=
  if can_reprocess_execution db execution_id = false then Except.ok (db, none)
  else
    match get_execution db execution_id with
    | none => Except.ok (db, none)
    | some orig =>
        let started := start_execution db orig.automation_name none
          orig.metadata now
        let db2 := reprocess_parent_update started.1 execution_id started.2
        let db3 := reprocess_copy_items db2 execution_id started.2 keep_items
          reset_items_status
        Except.ok (db3, some started.2)

/-- `Database.can_reprocess_item`. -/
def can_reprocess_item (db : DbState) (item_id : Nat) : Bool :=
  match get_item db item_id with
  | none => false
  | some it =>
      decide (it.status = "interrupted") && it.allow_reprocess &&
      db.allow_reprocess_items

/-- `Database.reprocess_interrupted_item`: in-place reset to `pending`,
clearing the processing fields and bumping `retry_count`. -/
def reprocess_interrupted_item (db : DbState) (item_id : Nat) :
    Except String (DbState × Bool) :=
  if can_reprocess_item db item_id = false then
    Except.error ("Item " ++ toString item_id ++ " cannot be reprocessed")
  else
    Except.ok ({ db with items := db.items.map (fun it =>
      if it.id = item_id then
        { it with status := "pending", started_at := none,
                  finished_at := none, error_message := none,
                  last_checkpoint := none,
                  retry_count := it.retry_count + 1 }
      else it) }, true)

-- ========== FULL-TABLE WIPE METHODS ==========

/-- The validation message raised by the whole-table wipe operations when
`confirm` is not `True`. -/
def wipeRefusedMsg : String :=
  "Esta operação remove TODOS os dados permanentemente! Passe confirm=True para executar."

/-- `Database.clear_executions_table`: guarded only by the boolean `confirm`
flag (the method has no confirmation-code parameter). -/
def clear_executions_table (db : DbState) (confirm : Bool) :
    Except String DbState :=
  if confirm = false then Except.error wipeRefusedMsg
  else Except.ok { db with executions := [] }

/-- `Database.clear_items_table`: guarded only by `confirm`. -/
def clear_items_table (db : DbState) (confirm : Bool) :
    Except String DbState :=
  if confirm = false then Except.error wipeRefusedMsg
  else Except.ok { db with items := [] }

/-- `Database.clear_logs_table`: guarded only by `confirm`. -/
def clear_logs_table (db : DbState) (confirm : Bool) :
    Except String DbState :=
  if confirm = false then Except.error wipeRefusedMsg
  else Except.ok { db with logs := [] }

/-- `Database.clear_database`: guarded only by `confirm`; wipes items, then
logs, then executions, each via the table wipes with `confirm=True`. -/
def clear_database (db : DbState) (confirm : Bool) : Except String DbState :=
  if confirm = false then Except.error wipeRefusedMsg
  else
    match clear_items_table db true with
    | Except.error e => Except.error e
    | Except.ok db1 =>
        match clear_logs_table db1 true with
        | Except.error e => Except.error e
        | Except.ok db2 =>
            match clear_executions_table db2 true with
            | Except.error e => Except.error e
            | Except.ok db3 => Except.ok db3

-- ========== OPERATIONS AS A STEP RELATION ==========

/-- The state-mutating public operations of the `Database` class that are
modelled here, with their arguments. -/
inductive Op where
  | startExecution (automation_name : String) (execution_id : Option String)
      (metadata : Option String) (now : Nat)
  | finishExecution (execution_id : Nat) (status : String)
      (error_message : Option String) (now : Nat)
  | addItem (execution_id : Nat) (item_identifier : Option String)
      (item_data : Option String) (processing_schema : Option String)
      (priority : Int)
  | addItems (execution_id : Nat) (specs : List ItemSpec)
      (default_priority : Int)
  | startProcessingItem (item_id : Nat) (now : Nat)
  | updateCheckpoint (item_id : Nat) (checkpoint : String)
  | finishItem (item_id : Nat) (status : String)
      (error_message : Option String) (notes : Option String) (now : Nat)
  | markExecutionInterrupted (execution_id : Nat)
  | detectExecutions
  | detectItems
  | reprocessExecution (execution_id : Nat) (keep_items : Bool)
      (reset_items_status : Bool) (now : Nat)
  | reprocessItem (item_id : Nat)
  | clearExecutionsTable (confirm : Bool)
  | clearItemsTable (confirm : Bool)
  | clearLogsTable (confirm : Bool)
  | clearDatabase (confirm : Bool)
deriving Repr, DecidableEq

/-- Whether the operation is a `finish_execution` call. -/
def Op.isFinishExecution : Op → Bool
  | .finishExecution _ _ _ _ => true
  | _ => false

/-- The state after running one operation.  A raised `DatabaseError` leaves
the tables untouched (every method either raises before its first mutating
statement or, on the transactional backends, rolls back before re-raising). -/
def step (op : Op) (db : DbState) : DbState :=
  match op with
  | .startExecution a e m now => (start_execution db a e m now).1
  | .finishExecution id st err now =>
      match finish_execution db id st err now with
      | Except.ok p => p.1
      | Except.error _ => db
  | .addItem e ident dat sch pr => (add_item db e ident dat sch pr).1
  | .addItems e specs dp => (add_items db e specs dp).1
  | .startProcessingItem id now => (start_processing_item db id now).1
  | .updateCheckpoint id cp => (update_checkpoint db id cp).1
  | .finishItem id st err notes now =>
      match finish_item db id st err notes now with
      | Except.ok p => p.1
      | Except.error _ => db
  | .markExecutionInterrupted id => mark_execution_interrupted db id
  | .detectExecutions => (detect_and_mark_interrupted_executions db).1
  | .detectItems => (detect_and_mark_interrupted_items db).1
  | .reprocessExecution id k r now =>
      match reprocess_interrupted_execution db id k r now with
      | Except.ok p => p.1
      | Except.error _ => db
  | .reprocessItem id =>
      match reprocess_interrupted_item db id with
      | Except.ok p => p.1
      | Except.error _ => db
  | .clearExecutionsTable c =>
      match clear_executions_table db c with
      | Except.ok db1 => db1
      | Except.error _ => db
  | .clearItemsTable c =>
      match clear_items_table db c with
      | Except.ok db1 => db1
      | Except.error _ => db
  | .clearLogsTable c =>
      match clear_logs_table db c with
      | Except.ok db1 => db1
      | Except.error _ => db
  | .clearDatabase c =>
      match clear_database db c with
      | Except.ok db1 => db1
      | Except.error _ => db

/-- Whether the operation is an `add_item` or `add_items` call. -/
def Op.isAdd : Op → Bool
  | .addItem _ _ _ _ _ => true
  | .addItems _ _ _ => true
  | _ => false

/-- Run a sequence of operations left to right. -/
def run_ops (ops : List Op) (db : DbState) : DbState :=
  ops.foldl (fun d op => step op d) db

/-- The queue-position invariant of one execution: the positions of its
items, read in table (insertion) order, are strictly increasing. -/
def QueueInv (db : DbState) (e : Nat) : Prop :=
  (queuePositions db e).Pairwise (· < ·)

/-- The executions currently in `running` status. -/
def running_executions (db : DbState) : List ExecRow :=
  db.executions.filter (fun r => decide (r.status = "running"))

/-- The items currently in `processing` status. -/
def processing_items (db : DbState) : List ItemRow :=
  db.items.filter (fun it => decide (it.status = "processing"))

/-- Projection helpers on a stored item row. -/
def item_status (db : DbState) (item_id : Nat) : Option String :=
  match get_item db item_id with
  | none => none
  | some it => some it.status

def item_last_checkpoint (db : DbState) (item_id : Nat) : Option (Option String) :=
  match get_item db item_id with
  | none => none
  | some it => some it.last_checkpoint

/-- `n` successive `add_item` calls (bare payload, priority 0) on one
execution. -/
def add_item_iter (e : Nat) : Nat → DbState → DbState
  | 0, db => db
  | n + 1, db => (add_item (add_item_iter e n db) e none none none 0).1

-- ========== CONCRETE STATES USED BY WITNESSES AND COUNTEREXAMPLES ==========

/-- A fresh execution with zero items. -/
def c9_zero_db : DbState := (start_execution emptyDb "bot" none none 0).1

/-- `c9_zero_db` after `finish_execution(1, 'completed')`. -/
def c9_zero_after : DbState :=
  step (Op.finishExecution 1 "completed" none 4) c9_zero_db

/-- A running execution owning a single `success` item. -/
def c9w_db : DbState :=
  { executions :=
      [{ id := 1, execution_id := none, automation_name := "bot",
         status := "running", finished_properly := false,
         allow_reprocess := true, reprocess_count := 0,
         parent_execution_id := none, started_at := 0, finished_at := none,
         total_items := 1, successful_items := some 0, failed_items := some 0,
         interrupted_items := some 0, error_message := none, metadata := none }],
    items :=
      [{ id := 1, execution_id := 1, item_identifier := none,
         status := "success", priority := 0, queue_position := 1,
         processing_schema := none, item_data := none, last_checkpoint := none,
         started_at := some 1, finished_at := some 2, error_message := none,
         notes := none, retry_count := 0, allow_reprocess := true }],
    logs := [], nextExecId := 2, nextItemId := 2, current_execution_id := some 1,
    allow_reprocess_items := false, allow_reprocess_executions := false }

/-- `c9w_db` after `finish_execution(1, 'completed')`. -/
def c9w_after : DbState :=
  step (Op.finishExecution 1 "completed" none 5) c9w_db

/-- A state holding one execution and one item that are already
`interrupted` (from an earlier sweep or handler), with nothing running or
processing. -/
def c7_db : DbState :=
  { executions :=
      [{ id := 1, execution_id := none, automation_name := "bot",
         status := "interrupted", finished_properly := false,
         allow_reprocess := true, reprocess_count := 0,
         parent_execution_id := none, started_at := 0, finished_at := none,
         total_items := 1, successful_items := some 0, failed_items := some 0,
         interrupted_items := some 0, error_message := none, metadata := none }],
    items :=
      [{ id := 1, execution_id := 1, item_identifier := none,
         status := "interrupted", priority := 0, queue_position := 1,
         processing_schema := none, item_data := none, last_checkpoint := none,
         started_at := none, finished_at := none, error_message := none,
         notes := none, retry_count := 0, allow_reprocess := true }],
    logs := [], nextExecId := 2, nextItemId := 2, current_execution_id := none,
    allow_reprocess_items := false, allow_reprocess_executions := false }

/-- The §8 scenario: one running execution with three pending items of
priorities 0, 5, 0 inserted in that order. -/
def c1_db : DbState :=
  { executions :=
      [{ id := 1, execution_id := none, automation_name := "invoice-bot",
         status := "running", finished_properly := false,
         allow_reprocess := true, reprocess_count := 0,
         parent_execution_id := none, started_at := 0, finished_at := none,
         total_items := 3, successful_items := some 0, failed_items := some 0,
         interrupted_items := some 0, error_message := none, metadata := none }],
    items :=
      [{ id := 1, execution_id := 1, item_identifier := some "a",
         status := "pending", priority := 0, queue_position := 1,
         processing_schema := none, item_data := none, last_checkpoint := none,
         started_at := none, finished_at := none, error_message := none,
         notes := none, retry_count := 0, allow_reprocess := true },
       { id := 2, execution_id := 1, item_identifier := some "b",
         status := "pending", priority := 5, queue_position := 2,
         processing_schema := none, item_data := none, last_checkpoint := none,
         started_at := none, finished_at := none, error_message := none,
         notes := none, retry_count := 0, allow_reprocess := true },
       { id := 3, execution_id := 1, item_identifier := some "c",
         status := "pending", priority := 0, queue_position := 3,
         processing_schema := none, item_data := none, last_checkpoint := none,
         started_at := none, finished_at := none, error_message := none,
         notes := none, retry_count := 0, allow_reprocess := true }],
    logs := [], nextExecId := 2, nextItemId := 4, current_execution_id := some 1,
    allow_reprocess_items := false, allow_reprocess_executions := false }

/-- A state with one row in each table, used to exercise the whole-table
wipe operations. -/
def c2_db : DbState :=
  { executions :=
      [{ id := 1, execution_id := none, automation_name := "bot",
         status := "completed", finished_properly := true,
         allow_reprocess := true, reprocess_count := 0,
         parent_execution_id := none, started_at := 0, finished_at := some 3,
         total_items := 1, successful_items := some 1, failed_items := some 0,
         interrupted_items := some 0, error_message := none, metadata := none }],
    items :=
      [{ id := 1, execution_id := 1, item_identifier := none,
         status := "success", priority := 0, queue_position := 1,
         processing_schema := none, item_data := none, last_checkpoint := none,
         started_at := some 1, finished_at := some 2, error_message := none,
         notes := none, retry_count := 0, allow_reprocess := true }],
    logs := [{ id := 1, execution_id := 1, log_level := "info",
               step_name := none, message := "done" }],
    nextExecId := 2, nextItemId := 2, current_execution_id := none,
    allow_reprocess_items := false, allow_reprocess_executions := false }

/-- A state whose only item is terminal (`success`), used against
`start_processing_item`/`update_checkpoint`. -/
def c10_db : DbState :=
  { executions :=
      [{ id := 1, execution_id := none, automation_name := "bot",
         status := "running", finished_properly := false,
         allow_reprocess := true, reprocess_count := 0,
         parent_execution_id := none, started_at := 0, finished_at := none,
         total_items := 1, successful_items := some 1, failed_items := some 0,
         interrupted_items := some 0, error_message := none, metadata := none }],
    items :=
      [{ id := 1, execution_id := 1, item_identifier := none,
         status := "success", priority := 0, queue_position := 1,
         processing_schema := none, item_data := none, last_checkpoint := none,
         started_at := some 1, finished_at := some 2, error_message := none,
         notes := none, retry_count := 0, allow_reprocess := true }],
    logs := [], nextExecId := 2, nextItemId := 2, current_execution_id := some 1,
    allow_reprocess_items := false, allow_reprocess_executions := false }

/-- A reprocessable interrupted execution (policy flag on, row flag on) with
one interrupted item. -/
def c3_db : DbState :=
  { executions :=
      [{ id := 1, execution_id := none, automation_name := "bot",
         status := "interrupted", finished_properly := false,
         allow_reprocess := true, reprocess_count := 0,
         parent_execution_id := none, started_at := 0, finished_at := none,
         total_items := 1, successful_items := some 0, failed_items := some 0,
         interrupted_items := some 0, error_message := none, metadata := none }],
    items :=
      [{ id := 1, execution_id := 1, item_identifier := some "x",
         status := "interrupted", priority := 0, queue_position := 1,
         processing_schema := none, item_data := none, last_checkpoint := none,
         started_at := none, finished_at := none, error_message := none,
         notes := none, retry_count := 0, allow_reprocess := true }],
    logs := [], nextExecId := 2, nextItemId := 2, current_execution_id := none,
    allow_reprocess_items := false, allow_reprocess_executions := true }

/-- Two executions, each owning one item; execution 1's item is already
`success`, execution 2's item is `processing`. -/
def c4_db : DbState :=
  { executions :=
      [{ id := 1, execution_id := none, automation_name := "a",
         status := "running", finished_properly := false,
         allow_reprocess := true, reprocess_count := 0,
         parent_execution_id := none, started_at := 0, finished_at := none,
         total_items := 1, successful_items := some 0, failed_items := some 0,
         interrupted_items := some 0, error_message := none, metadata := none },
       { id := 2, execution_id := none, automation_name := "b",
         status := "running", finished_properly := false,
         allow_reprocess := true, reprocess_count := 0,
         parent_execution_id := none, started_at := 0, finished_at := none,
         total_items := 1, successful_items := some 0, failed_items := some 0,
         interrupted_items := some 0, error_message := none, metadata := none }],
    items :=
      [{ id := 1, execution_id := 1, item_identifier := none,
         status := "success", priority := 0, queue_position := 1,
         processing_schema := none, item_data := none, last_checkpoint := none,
         started_at := none, finished_at := some 2, error_message := none,
         notes := none, retry_count := 0, allow_reprocess := true },
       { id := 2, execution_id := 2, item_identifier := none,
         status := "processing", priority := 0, queue_position := 1,
         processing_schema := none, item_data := none, last_checkpoint := none,
         started_at := some 1, finished_at := none, error_message := none,
         notes := none, retry_count := 0, allow_reprocess := true }],
    logs := [], nextExecId := 3, nextItemId := 3, current_execution_id := some 2,
    allow_reprocess_items := false, allow_reprocess_executions := false }

/-- The state after `finish_item(2, 'success')` on `c4_db`. -/
def c4_db_after : DbState := step (Op.finishItem 2 "success" none none 9) c4_db

/-- A state with one terminal (completed, finished-properly) execution. -/
def c6_db : DbState :=
  { executions :=
      [{ id := 1, execution_id := none, automation_name := "bot",
         status := "completed", finished_properly := true,
         allow_reprocess := true, reprocess_count := 0,
         parent_execution_id := none, started_at := 0, finished_at := some 2,
         total_items := 0, successful_items := some 0, failed_items := some 0,
         interrupted_items := some 0, error_message := none, metadata := none }],
    items := [], logs := [], nextExecId := 2, nextItemId := 1,
    current_execution_id := none, allow_reprocess_items := false,
    allow_reprocess_executions := false }

/-- The completed row of `c6_db`. -/
def c6_row : ExecRow :=
  { id := 1, execution_id := none, automation_name := "bot",
    status := "completed", finished_properly := true, allow_reprocess := true,
    reprocess_count := 0, parent_execution_id := none, started_at := 0,
    finished_at := some 2, total_items := 0, successful_items := some 0,
    failed_items := some 0, interrupted_items := some 0, error_message := none,
    metadata := none }

/-- The priority-5 item of `c1_db`. -/
def c1_item2 : ItemRow :=
  { id := 2, execution_id := 1, item_identifier := some "b",
    status := "pending", priority := 5, queue_position := 2,
    processing_schema := none, item_data := none, last_checkpoint := none,
    started_at := none, finished_at := none, error_message := none,
    notes := none, retry_count := 0, allow_reprocess := true }

-- ========== C1: QUEUE ORDERING ==========

theorem betterQueueItem_self (a : ItemRow) : betterQueueItem a a = false := by
  simp only [betterQueueItem, decide_eq_false_iff_not]
  omega

theorem betterQueueItem_trans_left {r c it : ItemRow}
    (h1 : betterQueueItem c it = true) (h2 : betterQueueItem r it = false) :
    betterQueueItem r c = false := by
  simp only [betterQueueItem, decide_eq_true_eq, decide_eq_false_iff_not] at *
  omega

theorem betterQueueItem_trans_false {r c it : ItemRow}
    (h1 : betterQueueItem c it = false) (h2 : betterQueueItem r c = false) :
    betterQueueItem r it = false := by
  simp only [betterQueueItem, decide_eq_false_iff_not] at *
  omega

theorem selectBest_some_spec :
    ∀ (l : List ItemRow) (c r : ItemRow), selectBest (some c) l = some r →
      (r = c ∨ r ∈ l) ∧ betterQueueItem r c = false ∧
      ∀ j ∈ l, betterQueueItem r j = false := by
  intro l
  induction l with
  | nil =>
      intro c r h
      simp only [selectBest, Option.some.injEq] at h
      subst h
      exact ⟨Or.inl rfl, betterQueueItem_self _, by simp⟩
  | cons it rest ih =>
      intro c r h
      simp only [selectBest] at h
      by_cases hb : betterQueueItem c it = true
      · rw [if_pos hb] at h
        obtain ⟨hmem, hrc, hall⟩ := ih it r h
        refine ⟨?_, betterQueueItem_trans_left hb hrc, ?_⟩
        · rcases hmem with rfl | hm
          · exact Or.inr (List.mem_cons_self _ _)
          · exact Or.inr (List.mem_cons_of_mem _ hm)
        · intro j hj
          rcases List.mem_cons.mp hj with rfl | hj2
          · exact hrc
          · exact hall j hj2
      · rw [if_neg hb] at h
        obtain ⟨hmem, hrc, hall⟩ := ih c r h
        have hcit : betterQueueItem c it = false := by
          cases hcv : betterQueueItem c it
          · rfl
          · exact absurd hcv hb
        refine ⟨?_, hrc, ?_⟩
        · rcases hmem with rfl | hm
          · exact Or.inl rfl
          · exact Or.inr (List.mem_cons_of_mem _ hm)
        · intro j hj
          rcases List.mem_cons.mp hj with rfl | hj2
          · exact betterQueueItem_trans_false hcit hrc
          · exact hall j hj2

theorem selectBest_none_spec (l : List ItemRow) (r : ItemRow)
    (h : selectBest none l = some r) :
    r ∈ l ∧ ∀ j ∈ l, betterQueueItem r j = false := by
  cases l with
  | nil => simp [selectBest] at h
  | cons it rest =>
      simp only [selectBest] at h
      obtain ⟨hmem, hrc, hall⟩ := selectBest_some_spec rest it r h
      refine ⟨?_, ?_⟩
      · rcases hmem with rfl | hm
        · exact List.mem_cons_self _ _
        · exact List.mem_cons_of_mem _ hm
      · intro j hj
        rcases List.mem_cons.mp hj with rfl | hj2
        · exact hrc
        · exact hall j hj2

theorem selectBest_some_ne_none :
    ∀ (l : List ItemRow) (c : ItemRow), selectBest (some c) l ≠ none := by
  intro l
  induction l with
  | nil => intro c; simp [selectBest]
  | cons it rest ih =>
      intro c
      simp only [selectBest]
      split
      · exact ih it
      · exact ih c

theorem selectBest_none_eq_none_iff (l : List ItemRow) :
    selectBest none l = none ↔ l = [] := by
  cases l with
  | nil => simp [selectBest]
  | cons it rest =>
      simp only [selectBest]
      exact ⟨fun h => absurd h (selectBest_some_ne_none rest it), fun h => by simp at h⟩

/-- C1: for every database state, `get_next_item_from_queue` returns an item
of the requested execution whose status is in the eligible set (pending,
queued, and interrupted exactly when the effective include-interrupted flag —
the caller's argument, falling back to the class-level policy — is set), and
that item has maximal priority among the eligible items, ties broken by
lowest queue position; it returns `none` exactly when the execution has no
eligible item. -/
theorem c1_get_next_item_queue_order :
    ∀ (db : DbState) (e : Nat) (incOpt : Option Bool),
      (get_next_item_from_queue db e incOpt = none ↔
        eligible_items db e (incOpt.getD db.allow_reprocess_items) = []) ∧
      (∀ r, get_next_item_from_queue db e incOpt = some r →
        r ∈ eligible_items db e (incOpt.getD db.allow_reprocess_items) ∧
        r.execution_id = e ∧
        statusEligible (incOpt.getD db.allow_reprocess_items) r.status = true ∧
        ∀ j ∈ eligible_items db e (incOpt.getD db.allow_reprocess_items),
          j.priority < r.priority ∨
            (j.priority = r.priority ∧ r.queue_position ≤ j.queue_position)) := by
  intro db e incOpt
  constructor
  · unfold get_next_item_from_queue
    exact selectBest_none_eq_none_iff _
  · intro r h
    unfold get_next_item_from_queue at h
    obtain ⟨hmem, hall⟩ := selectBest_none_spec _ r h
    have hf := (List.mem_filter.mp hmem).2
    rw [Bool.and_eq_true, decide_eq_true_eq] at hf
    refine ⟨hmem, hf.1, hf.2, ?_⟩
    intro j hj
    have hbj := hall j hj
    simp only [betterQueueItem, decide_eq_false_iff_not] at hbj
    omega

/-- Witness for C1 at the concrete scenario state `c1_db`: the dequeue
returns the priority-5 item `c1_item2`, which is eligible and belongs to
execution 1. -/
theorem c1_queue_order_witness :
    c1_item2 ∈ eligible_items c1_db 1
      ((none : Option Bool).getD c1_db.allow_reprocess_items) ∧
    c1_item2.execution_id = 1 ∧
    statusEligible ((none : Option Bool).getD c1_db.allow_reprocess_items)
      c1_item2.status = true := by
  have h := (c1_get_next_item_queue_order c1_db 1 none).2 c1_item2 (by decide)
  exact ⟨h.1, h.2.1, h.2.2.1⟩

-- ========== C5: QUEUE POSITION ASSIGNMENT ==========

theorem init_le_foldl_max : ∀ (l : List Nat) (a : Nat), a ≤ l.foldl max a
  | [], a => le_refl a
  | b :: l, a => le_trans (le_max_left a b) (init_le_foldl_max l (max a b))

theorem mem_le_foldl_max : ∀ (l : List Nat) (a x : Nat), x ∈ l → x ≤ l.foldl max a := by
  intro l
  induction l with
  | nil => intro a x hx; simp at hx
  | cons b l ih =>
      intro a x hx
      rcases List.mem_cons.mp hx with rfl | hx2
      · exact le_trans (le_max_right a x) (init_le_foldl_max l (max a x))
      · exact ih (max a b) x hx2

theorem mem_queuePositions_le_max (db : DbState) (e : Nat) (p : Nat)
    (hp : p ∈ queuePositions db e) : p ≤ maxQueuePosition db e :=
  mem_le_foldl_max _ 0 p hp

theorem queuePositions_add_item (db : DbState) (e : Nat)
    (ident dat sch : Option String) (pr : Int) :
    queuePositions (add_item db e ident dat sch pr).1 e =
      queuePositions db e ++ [maxQueuePosition db e + 1] := by
  unfold add_item queuePositions exec_items
  simp [List.filter_append, List.map_append]

theorem queuePositions_add_item_ne (db : DbState) (e e' : Nat)
    (ident dat sch : Option String) (pr : Int) (h : e' ≠ e) :
    queuePositions (add_item db e' ident dat sch pr).1 e =
      queuePositions db e := by
  unfold add_item queuePositions exec_items
  simp [List.filter_append, h]

theorem queuePositions_add_items (db : DbState) (e : Nat)
    (specs : List ItemSpec) (dp : Int) (h : specs ≠ []) :
    queuePositions (add_items db e specs dp).1 e =
      queuePositions db e ++
        (List.range specs.length).map (fun i => maxQueuePosition db e + 1 + i) := by
  unfold add_items queuePositions exec_items
  rw [if_neg (by simpa using h)]
  simp only [List.filter_append, List.map_append]
  congr 1
  rw [List.filter_eq_self.mpr (by intro x hx; rcases List.mem_map.mp hx with ⟨p, _, rfl⟩; simp)]
  rw [List.map_map]
  show specs.enum.map ((fun i => maxQueuePosition db e + 1 + i) ∘ Prod.fst) = _
  rw [← List.map_map, List.enum_map_fst]

theorem filter_exec_map_ne {α : Type} (l : List α) (f : α → ItemRow) (e : Nat)
    (hf : ∀ a, (f a).execution_id ≠ e) :
    (l.map f).filter (fun it => decide (it.execution_id = e)) = [] := by
  induction l with
  | nil => rfl
  | cons a l ih => simp [List.filter, hf a, ih]

theorem queuePositions_add_items_ne (db : DbState) (e e' : Nat)
    (specs : List ItemSpec) (dp : Int) (h : e' ≠ e) :
    queuePositions (add_items db e' specs dp).1 e = queuePositions db e := by
  unfold add_items
  by_cases hemp : specs.isEmpty
  · rw [if_pos hemp]
  · rw [if_neg hemp]
    unfold queuePositions exec_items
    simp only [List.filter_append, List.map_append]
    rw [filter_exec_map_ne _ _ _ (by intro a; simpa using h)]
    simp

theorem pairwise_lt_append_single {l : List Nat} {n : Nat}
    (h : l.Pairwise (· < ·)) (hn : ∀ x ∈ l, x < n) :
    (l ++ [n]).Pairwise (· < ·) :=
  List.pairwise_append.mpr ⟨h, List.pairwise_singleton _ _, by
    intro x hx y hy
    rw [List.mem_singleton] at hy
    subst hy
    exact hn x hx⟩

theorem pairwise_lt_block (m k : Nat) :
    ((List.range k).map (fun i => m + 1 + i)).Pairwise (· < ·) :=
  (List.pairwise_lt_range k).map _ (by intro a b hab; omega)

theorem pairwise_lt_append_block {l : List Nat} {m k : Nat}
    (h : l.Pairwise (· < ·)) (hm : ∀ x ∈ l, x ≤ m) :
    (l ++ (List.range k).map (fun i => m + 1 + i)).Pairwise (· < ·) :=
  List.pairwise_append.mpr ⟨h, pairwise_lt_block m k, by
    intro x hx y hy
    rcases List.mem_map.mp hy with ⟨i, _, rfl⟩
    have := hm x hx
    omega⟩

theorem queueInv_step_add (op : Op) (db : DbState) (e : Nat)
    (hop : Op.isAdd op = true) (h : QueueInv db e) : QueueInv (step op db) e := by
  cases op <;> simp only [Op.isAdd] at hop <;>
    try exact absurd hop Bool.false_ne_true
  case addItem e' ident dat sch pr =>
    show QueueInv (add_item db e' ident dat sch pr).1 e
    by_cases he : e' = e
    · subst he
      unfold QueueInv
      rw [queuePositions_add_item]
      exact pairwise_lt_append_single h (by
        intro x hx
        have := mem_queuePositions_le_max db e' x hx
        omega)
    · unfold QueueInv
      rw [queuePositions_add_item_ne db e e' ident dat sch pr he]
      exact h
  case addItems e' specs dp =>
    show QueueInv (add_items db e' specs dp).1 e
    by_cases he : e' = e
    · subst he
      by_cases hemp : specs = []
      · subst hemp
        unfold QueueInv
        show ((add_items db e' [] dp).1.items.filter _).map _ |>.Pairwise _
        exact h
      · unfold QueueInv
        rw [queuePositions_add_items db e' specs dp hemp]
        exact pairwise_lt_append_block h (fun x hx => mem_queuePositions_le_max db e' x hx)
    · unfold QueueInv
      rw [queuePositions_add_items_ne db e e' specs dp he]
      exact h

/-- C5: starting from any state where an execution's queue positions are
strictly increasing in insertion order, any sequence of `add_item`/`add_items`
calls keeps them strictly increasing (hence pairwise distinct); moreover
`add_item` assigns exactly `max(existing)+1` and a non-empty `add_items`
batch assigns the contiguous block `max+1, max+2, ...` in input order. -/
theorem c5_queue_positions_strictly_increasing :
    (∀ (ops : List Op) (db : DbState) (e : Nat),
      (∀ op ∈ ops, Op.isAdd op = true) → QueueInv db e →
      QueueInv (run_ops ops db) e ∧
        (queuePositions (run_ops ops db) e).Pairwise (fun a b => a ≠ b)) ∧
    (∀ (db : DbState) (e : Nat) (ident dat sch : Option String) (pr : Int),
      queuePositions (add_item db e ident dat sch pr).1 e =
        queuePositions db e ++ [maxQueuePosition db e + 1]) ∧
    (∀ (db : DbState) (e : Nat) (specs : List ItemSpec) (dp : Int), specs ≠ [] →
      queuePositions (add_items db e specs dp).1 e =
        queuePositions db e ++
          (List.range specs.length).map (fun i => maxQueuePosition db e + 1 + i)) := by
  refine ⟨?_, queuePositions_add_item, queuePositions_add_items⟩
  intro ops
  induction ops with
  | nil =>
      intro db e _ h
      exact ⟨h, h.imp (fun hlt => Nat.ne_of_lt hlt)⟩
  | cons op ops ih =>
      intro db e hops h
      have h1 : QueueInv (step op db) e :=
        queueInv_step_add op db e (hops op (List.mem_cons_self _ _)) h
      exact ih (step op db) e (fun o ho => hops o (List.mem_cons_of_mem _ ho)) h1

/-- Witness for C5: two batched inserts after a single insert on a fresh
execution keep the invariant. -/
theorem c5_queue_positions_witness :
    QueueInv (run_ops
      [Op.addItem 1 none none none 5,
       Op.addItems 1
         [{ item_identifier := none, item_data := none,
            processing_schema := none, priority := none },
          { item_identifier := none, item_data := none,
            processing_schema := none, priority := some 2 }] 0]
      (start_execution emptyDb "bot" none none 0).1) 1 := by
  exact (c5_queue_positions_strictly_increasing.1 _ _ 1 (by decide) (by
    unfold QueueInv
    decide)).1

-- ========== C7: SWEEP RETURN VALUES ==========

theorem detect_execs_ids_list (l : List ExecRow) :
    ((l.map (fun r =>
        if r.status = "running" ∧ r.finished_properly = false then
          { r with status := "interrupted", finished_properly := false }
        else r)).filter (fun r =>
          decide (r.status = "interrupted") && decide (r.finished_properly = false))).map
      (fun r => r.id) =
    (l.filter (fun r =>
        (decide (r.status = "running") || decide (r.status = "interrupted")) &&
        decide (r.finished_properly = false))).map (fun r => r.id) := by
  induction l with
  | nil => rfl
  | cons a l ih =>
      simp only [List.map_cons, List.filter_cons]
      by_cases h1 : a.status = "running" ∧ a.finished_properly = false
      · rw [if_pos h1]
        simp only [h1.1, h1.2]
        simp
        simpa using ih
      · rw [if_neg h1]
        by_cases h2 : a.status = "interrupted"
        · by_cases h3 : a.finished_properly = false
          · simp [h2, h3]
            simpa using ih
          · simp [h2, h3]
            simpa using ih
        · by_cases h4 : a.status = "running"
          · have h5 : a.finished_properly = true := by
              cases hfp : a.finished_properly
              · exact absurd ⟨h4, hfp⟩ h1
              · rfl
            simp [h2, h4, h5]
            simpa using ih
          · simp [h2, h4]
            simpa using ih

theorem detect_items_ids_list (l : List ItemRow) :
    ((l.map (fun it =>
        if it.status = "processing" then { it with status := "interrupted" }
        else it)).filter (fun it => decide (it.status = "interrupted"))).map
      (fun it => it.id) =
    (l.filter (fun it =>
        decide (it.status = "processing") ||
        decide (it.status = "interrupted"))).map (fun it => it.id) := by
  induction l with
  | nil => rfl
  | cons a l ih =>
      simp only [List.map_cons, List.filter_cons]
      by_cases h1 : a.status = "processing"
      · rw [if_pos h1]
        simp [h1]
        simpa using ih
      · rw [if_neg h1]
        by_cases h2 : a.status = "interrupted"
        · simp [h1, h2]
          simpa using ih
        · simp [h1, h2]
          simpa using ih

/-- C7 (amended): the two reconciliation sweeps return the ids of every row
that is in the interrupted state after the update — for executions all rows
that were `running` with `finished_properly=0` or already `interrupted` with
`finished_properly=0` before the call, for items all rows that were
`processing` or already `interrupted` — not only the rows transitioned
during this call. -/
theorem c7_detect_returns_post_state_ids :
    ∀ db : DbState,
      (detect_and_mark_interrupted_executions db).2 =
        (db.executions.filter (fun r =>
          (decide (r.status = "running") || decide (r.status = "interrupted")) &&
          decide (r.finished_properly = false))).map (fun r => r.id) ∧
      (detect_and_mark_interrupted_items db).2 =
        (db.items.filter (fun it =>
          decide (it.status = "processing") ||
          decide (it.status = "interrupted"))).map (fun it => it.id) := by
  intro db
  exact ⟨detect_execs_ids_list db.executions, detect_items_ids_list db.items⟩

/-- C7 counterexample: on `c7_db` nothing is running or processing, so the
sweeps transition zero rows (the state is returned unchanged), yet both
return the id of the row that was already interrupted beforehand — refuting
the claim that exactly the rows transitioned in this call are returned. -/
theorem c7_detect_returns_preexisting_counterexample :
    (detect_and_mark_interrupted_executions c7_db).1 = c7_db ∧
    (detect_and_mark_interrupted_executions c7_db).2 = [1] ∧
    running_executions c7_db = [] ∧
    (detect_and_mark_interrupted_items c7_db).1 = c7_db ∧
    (detect_and_mark_interrupted_items c7_db).2 = [1] ∧
    processing_items c7_db = [] := by
  decide

-- ========== C2: WHOLE-TABLE WIPES ==========

/-- C2 (amended): the whole-table wipe operations are guarded only by the
boolean `confirm` flag — there is no confirmation-string token in their
interface.  With `confirm=False` each raises a validation error and deletes
nothing; with `confirm=True` each performs the wipe unconditionally
(`clear_database` wiping items, then logs, then executions). -/
theorem c2_wipe_confirm_only :
    ∀ db : DbState,
      clear_executions_table db false = Except.error wipeRefusedMsg ∧
      clear_items_table db false = Except.error wipeRefusedMsg ∧
      clear_logs_table db false = Except.error wipeRefusedMsg ∧
      clear_database db false = Except.error wipeRefusedMsg ∧
      step (Op.clearExecutionsTable false) db = db ∧
      step (Op.clearItemsTable false) db = db ∧
      step (Op.clearLogsTable false) db = db ∧
      step (Op.clearDatabase false) db = db ∧
      clear_executions_table db true = Except.ok { db with executions := [] } ∧
      clear_items_table db true = Except.ok { db with items := [] } ∧
      clear_logs_table db true = Except.ok { db with logs := [] } ∧
      clear_database db true =
        Except.ok { db with items := [], logs := [], executions := [] } := by
  intro db
  exact ⟨rfl, rfl, rfl, rfl, rfl, rfl, rfl, rfl, rfl, rfl, rfl, rfl⟩

/-- C2 counterexample: on `c2_db` every wipe succeeds and deletes when given
only `confirm=True` — no confirmation-string token is demanded (none exists
in the interface), refuting the claim that each wipe requires both the
boolean flag and an exact matching token before deleting. -/
theorem c2_wipe_without_token_counterexample :
    c2_db.executions ≠ [] ∧ c2_db.items ≠ [] ∧ c2_db.logs ≠ [] ∧
    clear_executions_table c2_db true = Except.ok { c2_db with executions := [] } ∧
    clear_items_table c2_db true = Except.ok { c2_db with items := [] } ∧
    clear_logs_table c2_db true = Except.ok { c2_db with logs := [] } ∧
    clear_database c2_db true =
      Except.ok { c2_db with items := [], logs := [], executions := [] } := by
  exact ⟨by decide, by decide, by decide, rfl, rfl, rfl, rfl⟩

-- ========== C8: FINISH_EXECUTION VALIDATION ==========

/-- C8: `finish_execution` raises a validation error — with the state left
untouched — for every target status outside completed/failed/cancelled, and
raises a not-found error, again without mutation, when the execution id does
not exist. -/
theorem c8_finish_execution_validation :
    (∀ (db : DbState) (id : Nat) (st : String) (err : Option String) (now : Nat),
      ¬(st = "completed" ∨ st = "failed" ∨ st = "cancelled") →
      finish_execution db id st err now = Except.error ("Invalid status: " ++ st) ∧
      step (Op.finishExecution id st err now) db = db) ∧
    (∀ (db : DbState) (id : Nat) (st : String) (err : Option String) (now : Nat),
      (st = "completed" ∨ st = "failed" ∨ st = "cancelled") →
      get_execution db id = none →
      finish_execution db id st err now =
        Except.error ("Execution " ++ toString id ++ " not found") ∧
      step (Op.finishExecution id st err now) db = db) := by
  constructor
  · intro db id st err now h
    have h1 : finish_execution db id st err now =
        Except.error ("Invalid status: " ++ st) := by
      unfold finish_execution
      rw [if_pos h]
    exact ⟨h1, by simp [step, h1]⟩
  · intro db id st err now hst hnone
    have h1 : finish_execution db id st err now =
        Except.error ("Execution " ++ toString id ++ " not found") := by
      unfold finish_execution
      rw [if_neg (not_not_intro hst), hnone]
    exact ⟨h1, by simp [step, h1]⟩

/-- Witness for C8: a bad status (`"running"`) and a missing id on the empty
database both error out and leave the state alone. -/
theorem c8_finish_execution_validation_witness :
    (finish_execution emptyDb 1 "running" none 0 =
      Except.error ("Invalid status: " ++ "running")) ∧
    step (Op.finishExecution 1 "running" none 0) emptyDb = emptyDb ∧
    (finish_execution emptyDb 1 "completed" none 0 =
      Except.error ("Execution " ++ toString 1 ++ " not found")) ∧
    step (Op.finishExecution 1 "completed" none 0) emptyDb = emptyDb := by
  obtain ⟨ha, hb⟩ :=
    c8_finish_execution_validation.1 emptyDb 1 "running" none 0 (by decide)
  obtain ⟨hc, hd⟩ :=
    c8_finish_execution_validation.2 emptyDb 1 "completed" none 0 (by decide) rfl
  exact ⟨ha, hb, hc, hd⟩

-- ========== C10: MISSING-ID UPDATES ==========

theorem map_id_of_eq {α : Type} (l : List α) (f : α → α)
    (h : ∀ a ∈ l, f a = a) : l.map f = l := by
  induction l with
  | nil => rfl
  | cons a l ih =>
      rw [List.map_cons, h a (List.mem_cons_self a l),
        ih (fun b hb => h b (List.mem_cons_of_mem a hb))]

/-- C10 (amended): `start_processing_item` and `update_checkpoint` never
raise a not-found error — both always return `True`.  When no row matches
their `UPDATE`'s WHERE clause (for `start_processing_item`: no item with that
id in an eligible status; for `update_checkpoint`: no item with that id at
all) the state is left completely unchanged.  `update_checkpoint`'s WHERE
clause has no status condition, so on an existing item it writes the
checkpoint whatever the status. -/
theorem c10_missing_id_no_error :
    (∀ (db : DbState) (id now : Nat),
      (∀ it ∈ db.items, it.id = id →
        ¬(it.status = "pending" ∨ it.status = "queued" ∨
          it.status = "interrupted")) →
      start_processing_item db id now = (db, true)) ∧
    (∀ (db : DbState) (id : Nat) (cp : String),
      (∀ it ∈ db.items, it.id ≠ id) →
      update_checkpoint db id cp = (db, true)) ∧
    (∀ (db : DbState) (id now : Nat),
      (start_processing_item db id now).2 = true) ∧
    (∀ (db : DbState) (id : Nat) (cp : String),
      (update_checkpoint db id cp).2 = true) := by
  refine ⟨?_, ?_, fun _ _ _ => rfl, fun _ _ _ => rfl⟩
  · intro db id now h
    unfold start_processing_item
    rw [map_id_of_eq _ _ (by
      intro it hit
      rw [if_neg]
      intro hc
      exact h it hit hc.1 hc.2)]
  · intro db id cp h
    unfold update_checkpoint
    rw [map_id_of_eq _ _ (by
      intro it hit
      rw [if_neg (h it hit)])]

/-- Witness for C10 at `c10_db`: item id 2 does not exist, so both calls
return `True` with the state unchanged. -/
theorem c10_missing_id_no_error_witness :
    start_processing_item c10_db 2 5 = (c10_db, true) ∧
    update_checkpoint c10_db 2 "step" = (c10_db, true) := by
  exact ⟨c10_missing_id_no_error.1 c10_db 2 5 (by decide),
         c10_missing_id_no_error.2.1 c10_db 2 "step" (by decide)⟩

/-- C10 counterexample: `update_checkpoint` on an existing item in the
terminal (ineligible) status `success` still modifies the table — its
conditional `UPDATE` has no status guard, so it does not "affect zero rows"
as the claim states for ineligible items. -/
theorem c10_update_checkpoint_modifies_counterexample :
    item_status c10_db 1 = some "success" ∧
    statusEligible true "success" = false ∧
    (update_checkpoint c10_db 1 "step-1").1 ≠ c10_db ∧
    (update_checkpoint c10_db 1 "step-1").2 = true ∧
    item_last_checkpoint (update_checkpoint c10_db 1 "step-1").1 1 =
      some (some "step-1") ∧
    item_last_checkpoint c10_db 1 = some none := by
  decide

-- ========== C3: REPROCESS ITEM CARRY-FORWARD (CODE BUG) ==========

/-- C3 evaluated at the failing input: on the reprocessable interrupted
execution 1 of `c3_db`, `reprocess_interrupted_execution` with
`keep_items=True, reset_items_status=False` succeeds and creates execution 2,
but copies NO items into it — the copy INSERT sits inside the
`if reset_items_status:` branch, contradicting the documented behaviour of
`keep_items` ("If True, keeps items from original execution").  With
`reset_items_status=True` the same call does copy the item. -/
theorem c3_keep_items_dropped_eval :
    can_reprocess_execution c3_db 1 = true ∧
    (reprocess_interrupted_execution c3_db 1 true false 7).toOption.map
      Prod.snd = some (some 2) ∧
    exec_items c3_db 1 ≠ [] ∧
    exec_items (step (Op.reprocessExecution 1 true false 7) c3_db) 2 = [] ∧
    exec_items (step (Op.reprocessExecution 1 true true 7) c3_db) 2 ≠ [] := by
  decide

-- ========== C4: FINISH_ITEM COUNTER REFRESH (CODE BUG) ==========

/-- C4 evaluated at the failing input: after `finish_item(2, 'success')` on
`c4_db`, execution 2's stored `successful_items` is 2 — the tautological
correlated subquery counted the success items of ALL executions — while its
own success-item count is 1; execution 1's stored counter is meanwhile left
stale at 0 although it owns one success item. -/
theorem c4_finish_item_global_count_eval :
    item_status c4_db_after 2 = some "success" ∧
    exec_successful_items c4_db_after 2 = some (some 2) ∧
    success_items_count c4_db_after 2 = 1 ∧
    exec_successful_items c4_db_after 1 = some (some 0) ∧
    success_items_count c4_db_after 1 = 1 := by
  decide

-- ========== C9: COUNTER ROUND-TRIP ==========

theorem find?_append_none {α : Type} (p : α → Bool) (l1 l2 : List α)
    (h : l1.find? p = none) : (l1 ++ l2).find? p = l2.find? p := by
  induction l1 with
  | nil => rfl
  | cons a l ih =>
      rw [List.cons_append]
      rw [List.find?_cons_of_neg _
        (List.find?_eq_none.mp h a (List.mem_cons_self a l))]
      exact ih (by
        rw [List.find?_eq_none]
        intro x hx
        exact List.find?_eq_none.mp h x (List.mem_cons_of_mem a hx))

theorem find?_id_map_exec (l : List ExecRow) (f : ExecRow → ExecRow) (e : Nat)
    (hid : ∀ r, (f r).id = r.id) :
    (l.map f).find? (fun r => decide (r.id = e)) =
      (l.find? (fun r => decide (r.id = e))).map f := by
  induction l with
  | nil => rfl
  | cons a l ih =>
      rw [List.map_cons]
      by_cases h : a.id = e
      · rw [List.find?_cons_of_pos _ (by simp [hid a, h]),
          List.find?_cons_of_pos _ (by simp [h]), Option.map_some']
      · rw [List.find?_cons_of_neg _ (by simp [hid a, h]),
          List.find?_cons_of_neg _ (by simp [h]), ih]

theorem exec_total_items_add_item (db : DbState) (e : Nat) (t : Nat)
    (ident dat sch : Option String) (pr : Int)
    (h : exec_total_items db e = some t) :
    exec_total_items (add_item db e ident dat sch pr).1 e = some (t + 1) := by
  unfold exec_total_items get_execution at h ⊢
  unfold add_item
  simp only
  rw [find?_id_map_exec _ _ e (by
    intro r
    by_cases hr : r.id = e
    · simp [hr]
    · simp [hr])]
  cases hfind : db.executions.find? (fun r => decide (r.id = e)) with
  | none => rw [hfind] at h; simp at h
  | some r =>
      rw [hfind] at h
      simp only [Option.map_some']
      have hre : r.id = e := by
        have := List.find?_some hfind
        simpa using this
      rw [if_pos hre]
      simp only at h ⊢
      injection h with h
      rw [h]

theorem exec_total_items_start (db : DbState) (a : String)
    (ext meta : Option String) (now : Nat)
    (h : ∀ r ∈ db.executions, r.id ≠ db.nextExecId) :
    exec_total_items (start_execution db a ext meta now).1 db.nextExecId =
      some 0 := by
  unfold exec_total_items get_execution start_execution
  simp only
  rw [find?_append_none _ _ _ (by
    rw [List.find?_eq_none]
    intro r hr
    simp [h r hr])]
  rw [List.find?_cons_of_pos _ (by simp)]

theorem exec_total_items_iter (e : Nat) (n : Nat) (db : DbState) (t : Nat)
    (h : exec_total_items db e = some t) :
    exec_total_items (add_item_iter e n db) e = some (t + n) := by
  induction n with
  | zero => simpa using h
  | succ n ih =>
      have := exec_total_items_add_item (add_item_iter e n db) e (t + n)
        none none none 0 ih
      simpa [add_item_iter, Nat.add_assoc] using this

theorem three_status_counts_le (l : List ItemRow) (s1 s2 s3 : String)
    (h12 : s1 ≠ s2) (h13 : s1 ≠ s3) (h23 : s2 ≠ s3) :
    (l.filter (fun it => decide (it.status = s1))).length +
    (l.filter (fun it => decide (it.status = s2))).length +
    (l.filter (fun it => decide (it.status = s3))).length ≤ l.length := by
  induction l with
  | nil => simp
  | cons a l ih =>
      simp only [List.filter_cons, List.length_cons]
      by_cases h1 : a.status = s1
      · have d1 : decide (a.status = s1) = true := by simp [h1]
        have d2 : decide (a.status = s2) = false := by
          simp only [decide_eq_false_iff_not]
          exact fun hh => h12 (h1.symm.trans hh)
        have d3 : decide (a.status = s3) = false := by
          simp only [decide_eq_false_iff_not]
          exact fun hh => h13 (h1.symm.trans hh)
        rw [d1, d2, d3]
        simp
        omega
      · have d1 : decide (a.status = s1) = false := by
          simp only [decide_eq_false_iff_not]
          exact h1
        by_cases h2 : a.status = s2
        · have d2 : decide (a.status = s2) = true := by simp [h2]
          have d3 : decide (a.status = s3) = false := by
            simp only [decide_eq_false_iff_not]
            exact fun hh => h23 (h2.symm.trans hh)
          rw [d1, d2, d3]
          simp
          omega
        · have d2 : decide (a.status = s2) = false := by
            simp only [decide_eq_false_iff_not]
            exact h2
          by_cases h3 : a.status = s3
          · have d3 : decide (a.status = s3) = true := by simp [h3]
            rw [d1, d2, d3]
            simp
            omega
          · have d3 : decide (a.status = s3) = false := by
              simp only [decide_eq_false_iff_not]
              exact h3
            rw [d1, d2, d3]
            simp
            omega

/-- C9 (amended): an execution's `total_items` equals N after N `add_item`
calls on a freshly started execution, and `finish_execution` on an execution
with AT LEAST ONE item stores counters with
`successful + failed + interrupted ≤ total`.  (With zero items the stored
counters are SQL NULL rather than numbers — see the counterexample.) -/
theorem c9_total_and_counter_sum :
    (∀ (db : DbState) (a : String) (ext meta : Option String) (now n : Nat),
      (∀ r ∈ db.executions, r.id ≠ db.nextExecId) →
      exec_total_items
        (add_item_iter db.nextExecId n (start_execution db a ext meta now).1)
        db.nextExecId = some n) ∧
    (∀ (db : DbState) (id : Nat) (st : String) (err : Option String)
        (now : Nat) (db2 : DbState) (b : Bool),
      finish_execution db id st err now = Except.ok (db2, b) →
      exec_items db id ≠ [] →
      exec_successful_items db2 id = some (some (success_items_count db id)) ∧
      exec_failed_items db2 id = some (some (failed_items_count db id)) ∧
      exec_interrupted_items db2 id =
        some (some (interrupted_items_count db id)) ∧
      exec_total_items db2 id = some (exec_items db id).length ∧
      success_items_count db id + failed_items_count db id +
        interrupted_items_count db id ≤ (exec_items db id).length) := by
  constructor
  · intro db a ext meta now n h
    have h0 := exec_total_items_start db a ext meta now h
    simpa using exec_total_items_iter db.nextExecId n _ 0 h0
  · intro db id st err now db2 b hok hne
    have hempty : (exec_items db id).isEmpty = false := by
      cases hval : exec_items db id
      · exact absurd hval hne
      · rfl
    unfold finish_execution at hok
    split at hok
    · simp at hok
    · cases heq : get_execution db id with
      | none => rw [heq] at hok; simp at hok
      | some orig =>
          rw [heq] at hok
          simp only [hempty, Bool.false_eq_true, if_false, Except.ok.injEq,
            Prod.mk.injEq] at hok
          obtain ⟨hdb2, _⟩ := hok
          subst hdb2
          have hid : ∀ r : ExecRow,
              ((fun r => if r.id = id then
                  { r with status := st, finished_properly := true,
                           finished_at := some now,
                           total_items := (exec_items db id).length,
                           successful_items := some (success_items_count db id),
                           failed_items := some (failed_items_count db id),
                           interrupted_items :=
                             some (interrupted_items_count db id),
                           error_message := err }
                else r) r).id = r.id := by
            intro r
            by_cases hr : r.id = id
            · simp [hr]
            · simp [hr]
          have horig : orig.id = id := by
            have := List.find?_some heq
            simpa using this
          refine ⟨?_, ?_, ?_, ?_, ?_⟩
          · unfold exec_successful_items get_execution
            simp only
            rw [find?_id_map_exec _ _ id hid]
            unfold get_execution at heq
            rw [heq, Option.map_some']
            simp [horig]
          · unfold exec_failed_items get_execution
            simp only
            rw [find?_id_map_exec _ _ id hid]
            unfold get_execution at heq
            rw [heq, Option.map_some']
            simp [horig]
          · unfold exec_interrupted_items get_execution
            simp only
            rw [find?_id_map_exec _ _ id hid]
            unfold get_execution at heq
            rw [heq, Option.map_some']
            simp [horig]
          · unfold exec_total_items get_execution
            simp only
            rw [find?_id_map_exec _ _ id hid]
            unfold get_execution at heq
            rw [heq, Option.map_some']
            simp [horig]
          · exact three_status_counts_le (exec_items db id) "success" "failed"
              "interrupted" (by decide) (by decide) (by decide)

/-- C9 counterexample: finishing a zero-item execution stores SQL NULL
(`none`) — not the number 0 — in all three recomputed counters, so the
claimed arithmetic inequality over the stored counters has no numeric
left-hand side in the N = 0 case. -/
theorem c9_zero_items_null_counters_counterexample :
    exec_items c9_zero_db 1 = [] ∧
    exec_status c9_zero_after 1 = some "completed" ∧
    exec_total_items c9_zero_after 1 = some 0 ∧
    exec_successful_items c9_zero_after 1 = some none ∧
    exec_failed_items c9_zero_after 1 = some none ∧
    exec_interrupted_items c9_zero_after 1 = some none := by
  decide

/-- Witness for C9: three `add_item` calls on a fresh execution give
`total_items = 3`, and finishing the one-item execution `c9w_db` stores
counters summing below the total. -/
theorem c9_total_and_counter_sum_witness :
    exec_total_items
      (add_item_iter emptyDb.nextExecId 3
        (start_execution emptyDb "bot" none none 0).1)
      emptyDb.nextExecId = some 3 ∧
    exec_successful_items c9w_after 1 =
      some (some (success_items_count c9w_db 1)) ∧
    success_items_count c9w_db 1 + failed_items_count c9w_db 1 +
      interrupted_items_count c9w_db 1 ≤ (exec_items c9w_db 1).length := by
  have h1 := c9_total_and_counter_sum.1 emptyDb "bot" none none 0 3 (by decide)
  have h2 := c9_total_and_counter_sum.2 c9w_db 1 "completed" none 5 c9w_after
    true rfl (by decide)
  exact ⟨h1, h2.1, h2.2.2.2.2⟩

-- ========== C6: INTERRUPTION MARKING SAFETY ==========

theorem fp_map_preserved (l : List ExecRow) (f : ExecRow → ExecRow)
    (hid : ∀ r, (f r).id = r.id)
    (hfp : ∀ r, (f r).finished_properly = true → r.finished_properly = true) :
    ∀ r' ∈ l.map f, r'.finished_properly = true →
      ∃ r, r ∈ l ∧ r.id = r'.id ∧ r.finished_properly = true := by
  intro r' hmem hfp'
  rcases List.mem_map.mp hmem with ⟨r, hr, rfl⟩
  exact ⟨r, hr, (hid r).symm, hfp r hfp'⟩

theorem fp_append_map_preserved (l : List ExecRow) (row : ExecRow)
    (f : ExecRow → ExecRow) (hrow : row.finished_properly = false)
    (hid : ∀ r, (f r).id = r.id)
    (hfp : ∀ r, (f r).finished_properly = true → r.finished_properly = true) :
    ∀ r' ∈ (l ++ [row]).map f, r'.finished_properly = true →
      ∃ r, r ∈ l ∧ r.id = r'.id ∧ r.finished_properly = true := by
  intro r' hmem hfp'
  rcases List.mem_map.mp hmem with ⟨r0, hr0, rfl⟩
  have hfp0 := hfp r0 hfp'
  rcases List.mem_append.mp hr0 with h | h
  · exact ⟨r0, h, (hid r0).symm, hfp0⟩
  · rw [List.mem_singleton] at h
    subst h
    rw [hrow] at hfp0
    exact absurd hfp0 Bool.false_ne_true

theorem copy_fold_executions (l : List ItemRow) (newId : Nat) (reset : Bool)
    (d : DbState) :
    (l.foldl (copy_items_step newId reset) d).executions = d.executions := by
  induction l generalizing d with
  | nil => rfl
  | cons a l ih =>
      rw [List.foldl_cons, ih]
      unfold copy_items_step
      split <;> rfl

theorem start_execution_executions (db : DbState) (a : String)
    (e m : Option String) (now : Nat) :
    (start_execution db a e m now).1.executions =
      db.executions ++
        [{ id := db.nextExecId, execution_id := e, automation_name := a,
           status := "running", finished_properly := false,
           allow_reprocess := true, reprocess_count := 0,
           parent_execution_id := none, started_at := now,
           finished_at := none, total_items := 0, successful_items := some 0,
           failed_items := some 0, interrupted_items := some 0,
           error_message := none, metadata := m }] := rfl

theorem reprocess_parent_update_executions (db : DbState) (oid nid : Nat) :
    (reprocess_parent_update db oid nid).executions =
      db.executions.map (fun r =>
        if r.id = nid then
          { r with parent_execution_id := some oid,
                   reprocess_count := r.reprocess_count + 1 }
        else r) := rfl

theorem reprocess_copy_items_executions (db : DbState) (oid nid : Nat)
    (k rs : Bool) :
    (reprocess_copy_items db oid nid k rs).executions = db.executions := by
  unfold reprocess_copy_items
  split
  · rw [copy_fold_executions]
  · rfl

theorem finish_item_counter_update_fp (db : DbState) (owner : Option Nat) :
    ∀ r' ∈ (finish_item_counter_update db owner).executions,
      r'.finished_properly = true →
      ∃ r, r ∈ db.executions ∧ r.id = r'.id ∧ r.finished_properly = true := by
  intro r' hmem hfp
  refine fp_map_preserved db.executions _ ?_ ?_ r' hmem hfp
  · intro r
    split <;> rfl
  · intro r hfr
    split at hfr <;> exact hfr

theorem reprocess_pipeline_fp (db0 : DbState) (a : String)
    (em m : Option String) (now oid : Nat) (k rs : Bool) :
    ∀ r' ∈ (reprocess_copy_items
        (reprocess_parent_update (start_execution db0 a em m now).1 oid
          (start_execution db0 a em m now).2)
        oid (start_execution db0 a em m now).2 k rs).executions,
      r'.finished_properly = true →
      ∃ r, r ∈ db0.executions ∧ r.id = r'.id ∧ r.finished_properly = true := by
  intro r' hmem hfp
  rw [reprocess_copy_items_executions, reprocess_parent_update_executions,
    start_execution_executions] at hmem
  refine fp_append_map_preserved db0.executions _ _ ?_ ?_ ?_ r' hmem hfp
  · rfl
  · intro r
    split <;> rfl
  · intro r hfr
    split at hfr <;> exact hfr

/-- C6: neither interruption-marking path — the exit/signal handler's
conditional update (`_mark_execution_interrupted`) nor the startup
reconciliation sweep — touches an execution row that is not currently
`running` (the row survives verbatim), and neither path can produce a row
with `finished_properly=true` that was not already finished properly;
across every modelled operation, a row with `finished_properly=true` after
the step either had it before (same id) or the operation was
`finish_execution`. -/
theorem c6_interruption_never_touches_terminal :
    (∀ (db : DbState) (id : Nat) (r : ExecRow), r ∈ db.executions →
      r.status ≠ "running" →
      r ∈ (mark_execution_interrupted db id).executions) ∧
    (∀ (db : DbState) (r : ExecRow), r ∈ db.executions →
      r.status ≠ "running" →
      r ∈ (detect_and_mark_interrupted_executions db).1.executions) ∧
    (∀ (op : Op) (db : DbState), Op.isFinishExecution op = false →
      ∀ r' ∈ (step op db).executions, r'.finished_properly = true →
        ∃ r, r ∈ db.executions ∧ r.id = r'.id ∧
          r.finished_properly = true) := by
  refine ⟨?_, ?_, ?_⟩
  · intro db id r hr hst
    unfold mark_execution_interrupted
    exact List.mem_map.mpr ⟨r, hr, if_neg (fun hc => hst hc.2)⟩
  · intro db r hr hst
    unfold detect_and_mark_interrupted_executions
    exact List.mem_map.mpr ⟨r, hr, if_neg (fun hc => hst hc.1)⟩
  intro op db hop r' hmem hfp
  cases op with
  | startExecution a e m now =>
      have hmem2 : r' ∈ (start_execution db a e m now).1.executions := hmem
      rw [start_execution_executions] at hmem2
      rcases List.mem_append.mp hmem2 with h | h
      · exact ⟨r', h, rfl, hfp⟩
      · rw [List.mem_singleton] at h
        subst h
        exact absurd hfp Bool.false_ne_true
  | finishExecution id st err now => simp [Op.isFinishExecution] at hop
  | addItem e ident dat sch pr =>
      refine fp_map_preserved db.executions _ ?_ ?_ r' hmem hfp
      · intro r
        split <;> rfl
      · intro r hfr
        split at hfr <;> exact hfr
  | addItems e specs dp =>
      by_cases hemp : specs.isEmpty
      · have hst : step (Op.addItems e specs dp) db = db := by
          simp [step, add_items, hemp]
        rw [hst] at hmem
        exact ⟨r', hmem, rfl, hfp⟩
      · have hst : (step (Op.addItems e specs dp) db).executions =
            db.executions.map (fun r =>
              if r.id = e then
                { r with total_items := r.total_items + specs.length }
              else r) := by
          simp [step, add_items, hemp]
        rw [hst] at hmem
        refine fp_map_preserved db.executions _ ?_ ?_ r' hmem hfp
        · intro r
          split <;> rfl
        · intro r hfr
          split at hfr <;> exact hfr
  | startProcessingItem id now => exact ⟨r', hmem, rfl, hfp⟩
  | updateCheckpoint id cp => exact ⟨r', hmem, rfl, hfp⟩
  | finishItem id st err notes now =>
      cases hres : finish_item db id st err notes now with
      | error e =>
          have hst : step (Op.finishItem id st err notes now) db = db := by
            simp [step, hres]
          rw [hst] at hmem
          exact ⟨r', hmem, rfl, hfp⟩
      | ok p =>
          have hst : step (Op.finishItem id st err notes now) db = p.1 := by
            simp [step, hres]
          rw [hst] at hmem
          unfold finish_item at hres
          split at hres
          · simp at hres
          · cases hgi : get_item db id with
            | none =>
                rw [hgi] at hres
                simp at hres
            | some it0 =>
                rw [hgi] at hres
                simp only [Except.ok.injEq] at hres
                subst hres
                have hconc := finish_item_counter_update_fp _ _ r' hmem hfp
                exact hconc
  | markExecutionInterrupted id =>
      refine fp_map_preserved db.executions _ ?_ ?_ r' hmem hfp
      · intro r
        split <;> rfl
      · intro r hfr
        split at hfr
        · exact absurd hfr Bool.false_ne_true
        · exact hfr
  | detectExecutions =>
      refine fp_map_preserved db.executions _ ?_ ?_ r' hmem hfp
      · intro r
        split <;> rfl
      · intro r hfr
        split at hfr
        · exact absurd hfr Bool.false_ne_true
        · exact hfr
  | detectItems => exact ⟨r', hmem, rfl, hfp⟩
  | reprocessExecution id k rs now =>
      cases hres : reprocess_interrupted_execution db id k rs now with
      | error e =>
          have hst : step (Op.reprocessExecution id k rs now) db = db := by
            simp [step, hres]
          rw [hst] at hmem
          exact ⟨r', hmem, rfl, hfp⟩
      | ok p =>
          have hst : step (Op.reprocessExecution id k rs now) db = p.1 := by
            simp [step, hres]
          rw [hst] at hmem
          unfold reprocess_interrupted_execution at hres
          split at hres
          · simp only [Except.ok.injEq] at hres
            subst hres
            exact ⟨r', hmem, rfl, hfp⟩
          · cases heq : get_execution db id with
            | none =>
                rw [heq] at hres
                simp only [Except.ok.injEq] at hres
                subst hres
                exact ⟨r', hmem, rfl, hfp⟩
            | some orig =>
                rw [heq] at hres
                simp only [Except.ok.injEq] at hres
                subst hres
                exact reprocess_pipeline_fp db orig.automation_name none
                  orig.metadata now id k rs r' hmem hfp
  | reprocessItem id =>
      by_cases hc : can_reprocess_item db id = false
      · have hst : step (Op.reprocessItem id) db = db := by
          simp [step, reprocess_interrupted_item, hc]
        rw [hst] at hmem
        exact ⟨r', hmem, rfl, hfp⟩
      · have hst : (step (Op.reprocessItem id) db).executions =
            db.executions := by
          simp [step, reprocess_interrupted_item, hc]
        rw [hst] at hmem
        exact ⟨r', hmem, rfl, hfp⟩
  | clearExecutionsTable c =>
      cases c
      · exact ⟨r', hmem, rfl, hfp⟩
      · exact absurd hmem (List.not_mem_nil r')
  | clearItemsTable c =>
      cases c <;> exact ⟨r', hmem, rfl, hfp⟩
  | clearLogsTable c =>
      cases c <;> exact ⟨r', hmem, rfl, hfp⟩
  | clearDatabase c =>
      cases c
      · exact ⟨r', hmem, rfl, hfp⟩
      · exact absurd hmem (List.not_mem_nil r')

/-- Witness for C6: the completed row of `c6_db` survives both the handler
update and the reconciliation sweep verbatim. -/
theorem c6_interruption_witness :
    c6_row ∈ (mark_execution_interrupted c6_db 1).executions ∧
    c6_row ∈ (detect_and_mark_interrupted_executions c6_db).1.executions := by
  exact ⟨c6_interruption_never_touches_terminal.1 c6_db 1 c6_row (by decide)
      (by decide),
    c6_interruption_never_touches_terminal.2.1 c6_db c6_row (by decide)
      (by decide)⟩

end RpaSuite
